import Mathlib

/-!
Verification of the Pico weather-display firmware (main_app.py).

The Python source is shallowly embedded: each relevant Python function is
translated into a Lean definition of the same name, machine-level effects
(network, display, clock, interrupts) are made explicit as arguments and
result values, and Python exceptions are modelled with `Except PyErr`.
-/

/-- Python exception classes that the embedded code can raise. -/
inductive PyErr
  | nameError
  | typeError
  | valueError
  | attributeError
  | keyError
  | indexError
  | networkError
  | decodeError
  deriving DecidableEq, Repr

/-- Decoded JSON documents, as returned by `response.json()` in the source.
Numbers are modelled as rationals. -/
inductive Json
  | null
  | num (q : Rat)
  | str (s : String)
  | arr (elems : List Json)
  | obj (fields : List (String × Json))

/-- MicroPython millisecond tick counters wrap at `TICKS_PERIOD = 2^30`. -/
def TICKS_PERIOD : Nat := 1073741824

/-- `time.ticks_ms()` at real time `t` ms since power-on: the wrapped counter. -/
def ticks_ms (t : Nat) : Nat := t % TICKS_PERIOD

/-- `time.ticks_diff(a, b)`: signed wrap-aware difference of two tick values,
in the range `[-TICKS_PERIOD/2, TICKS_PERIOD/2)`. -/
def ticks_diff (a b : Nat) : Int :=
  ((a : Int) - (b : Int) + 536870912) % 1073741824 - 536870912

/-- The three globals shared between `setup_sw_handler` (interrupt context) and
the main loop (source lines 189-204 and 43).  `press_time` and
`long_press_triggered` are only ever assigned inside the handler, so at boot
the names are unbound: `none` models an unbound global (reading it raises
`NameError`), `some none` models Python `None`, and `some (some t)` a recorded
tick value. -/
structure ButtonState where
  press_time : Option (Option Nat)
  long_press_triggered : Option Bool
  start_update_requested : Bool
  deriving DecidableEq, Repr

/-- Global state right after the module body assigns
`start_update_requested = False` (line 43): the other two handler globals
have not been assigned yet. -/
def button_init : ButtonState := ⟨none, none, false⟩

/-- `setup_sw_handler(pin)` (lines 189-202).  `now_ticks` is the value
`time.ticks_ms()` returns during this invocation and `pinval` the value
`pin.value()` returns (0 = falling edge / pressed, nonzero = rising edge /
released). -/
def setup_sw_handler (now_ticks : Nat) (pinval : Nat) (s : ButtonState) :
    Except PyErr ButtonState :=
  if pinval = 0 then
    .ok { s with press_time := some (some now_ticks), long_press_triggered := some false }
  else
    match s.press_time with
    | none => .error .nameError
    | some none => .ok s
    | some (some pt) =>
      let duration := ticks_diff now_ticks pt
      if duration ≥ 5000 then
        .ok { press_time := some none, long_press_triggered := some true,
              start_update_requested := true }
      else
        .ok { s with press_time := some none }

/-- The fields of a `time.localtime()` 9-tuple that the source reads:
`t[0]` year, `t[1]` month, `t[2]` mday, `t[3]` hour, `t[4]` minute,
`t[5]` second (the weekday/yday/dst entries are never used). -/
structure PyTm where
  year : Nat
  mon : Nat
  mday : Nat
  hour : Nat
  minute : Nat
  sec : Nat
  deriving DecidableEq, Repr

/-- Python `"{:2d}".format(n)` for `n ≥ 0`: right-aligned, space-padded to
width 2. -/
def pad2 (n : Nat) : String := if n < 10 then " " ++ toString n else toString n

/-- Python `"{:02d}".format(n)` for `n ≥ 0`: zero-padded to width 2. -/
def zpad2 (n : Nat) : String := if n < 10 then "0" ++ toString n else toString n

/-- Python `"{:04d}".format(n)` for `n ≥ 0`: zero-padded to width 4. -/
def zpad4 (n : Nat) : String :=
  if n < 10 then "000" ++ toString n
  else if n < 100 then "00" ++ toString n
  else if n < 1000 then "0" ++ toString n
  else toString n

/-- `format_12h_time(t)` (lines 527-540). -/
def format_12h_time (t : PyTm) : String :=
  let hp : Nat × String :=
    if t.hour = 0 then (12, "AM")
    else if t.hour > 12 then (t.hour - 12, "PM")
    else if t.hour = 12 then (12, "PM")
    else (t.hour, "AM")
  pad2 hp.1 ++ ":" ++ zpad2 t.minute ++ ":" ++ zpad2 t.sec ++ " " ++ hp.2

/-- Python `d[k]` on a decoded JSON value: key lookup on a dict, raising
`KeyError` when the key is absent and `TypeError` when the value is not a
dict (string subscripts on lists/numbers/None raise `TypeError`). -/
def jsonGetKey : Json → String → Except PyErr Json
  | .obj fields, k =>
    match fields.find? (fun p => p.1 == k) with
    | some p => .ok p.2
    | none => .error .keyError
  | _, _ => .error .typeError

/-- Python `v[i]` with an integer index: list indexing raising `IndexError`
out of range; on a dict an integer key is absent (`KeyError`); on the rest
`TypeError`. -/
def jsonGetIdx : Json → Nat → Except PyErr Json
  | .arr xs, i =>
    match xs.get? i with
    | some x => .ok x
    | none => .error .indexError
  | .obj _, _ => .error .keyError
  | _, _ => .error .typeError

/-- Python `d.get(k, default)`: only dicts have `.get`; any other value
raises `AttributeError`. -/
def jsonGetD : Json → String → Json → Except PyErr Json
  | .obj fields, k, dflt =>
    .ok (match fields.find? (fun p => p.1 == k) with
         | some p => p.2
         | none => dflt)
  | _, _, _ => .error .attributeError

/-- Python truthiness of a decoded JSON value (`if periods:` etc.). -/
def pyTruthy : Json → Bool
  | .null => false
  | .num q => q != 0
  | .str s => !s.isEmpty
  | .arr xs => !xs.isEmpty
  | .obj fs => !fs.isEmpty

/-- Python 3 `round`: nearest integer, ties to even. -/
def pyRound (q : Rat) : Int :=
  let fl := ⌊q⌋
  if q - fl < 1 / 2 then fl
  else if q - fl > 1 / 2 then fl + 1
  else if fl % 2 = 0 then fl else fl + 1

/-- Python `int(x)` on a decoded JSON value: truncation toward zero on a
number, `TypeError` on `None`/lists/dicts.  (`int` of a numeric string is not
modelled; the observation API yields a number or null here.) -/
def pyInt : Json → Except PyErr Int
  | .num q => .ok (if 0 ≤ q then ⌊q⌋ else ⌈q⌉)
  | .str _ => .error .valueError
  | _ => .error .typeError

/-- Step 1 extraction of `get_weather_data` (lines 258-259):
`point_data["properties"]["forecast"]` and
`point_data["properties"]["observationStations"]`. -/
def extract_point (point_data : Json) : Except PyErr (Json × Json) := do
  let props ← jsonGetKey point_data "properties"
  let forecast_url ← jsonGetKey props "forecast"
  let props2 ← jsonGetKey point_data "properties"
  let obs_station_url ← jsonGetKey props2 "observationStations"
  return (forecast_url, obs_station_url)

/-- Step 2 extraction (lines 269-272): `features = data.get("features", [])`;
`None` overall result when the feature list is falsy, otherwise
`features[0]["properties"]["stationIdentifier"]`. -/
def extract_station (stations_data : Json) : Except PyErr (Option Json) := do
  let features ← jsonGetD stations_data "features" (Json.arr [])
  if pyTruthy features then do
    let f0 ← jsonGetIdx features 0
    let props ← jsonGetKey f0 "properties"
    let sid ← jsonGetKey props "stationIdentifier"
    return some sid
  else
    return none

/-- Step 3 extraction (lines 283-293): temperature and humidity from the
latest-observation document, with `temp_f = round(temp_c * 9 / 5 + 32)` when
the Celsius value is present. -/
def extract_obs (obs_data : Json) : Except PyErr (Option Int × Json) := do
  let obs ← jsonGetD obs_data "properties" (Json.obj [])
  let tobj ← jsonGetD obs "temperature" (Json.obj [])
  let temp_c ← jsonGetD tobj "value" Json.null
  let hobj ← jsonGetD obs "relativeHumidity" (Json.obj [])
  let humidity ← jsonGetD hobj "value" Json.null
  let temp_f : Option Int ←
    match temp_c with
    | .null => pure none
    | .num q => pure (some (pyRound (q * 9 / 5 + 32)))
    | _ => .error .typeError
  return (temp_f, humidity)

/-- Step 4 extraction (lines 301-304): first forecast period's
`shortForecast`, defaulting to the literal `"N/A"`. -/
def extract_forecast (forecast_data : Json) : Except PyErr Json := do
  let props ← jsonGetD forecast_data "properties" (Json.obj [])
  let periods ← jsonGetD props "periods" (Json.obj [])
  if pyTruthy periods then do
    let p0 ← jsonGetIdx periods 0
    jsonGetD p0 "shortForecast" (Json.str "N/A")
  else
    return Json.str "N/A"

/-- `get_weather_data(lat, lon)` (lines 248-310).  The network is modelled as
the list of outcomes of the successive `urequests.get(...).json()` calls, in
the order the function issues them: `.ok j` is a decoded document, `.error e`
a request or JSON-decode exception (an exhausted list is a failed request).
The result pairs the returned value with the number of network requests
issued; the whole body runs under `try/except Exception: return None`, so
every raised exception is mapped to a `none` result. -/
def get_weather_data (env : List (Except PyErr Json)) :
    Option (Option Int × Json × Json) × Nat :=
  match env with
  | [] => (none, 1)
  | .error _ :: _ => (none, 1)
  | .ok point_data :: env1 =>
    match extract_point point_data with
    | .error _ => (none, 1)
    | .ok _urls =>
      match env1 with
      | [] => (none, 2)
      | .error _ :: _ => (none, 2)
      | .ok stations_data :: env2 =>
        match extract_station stations_data with
        | .error _ => (none, 2)
        | .ok none => (none, 2)
        | .ok (some _sid) =>
          match env2 with
          | [] => (none, 3)
          | .error _ :: _ => (none, 3)
          | .ok obs_data :: env3 =>
            match extract_obs obs_data with
            | .error _ => (none, 3)
            | .ok (temp_f, humidity) =>
              match env3 with
              | [] => (none, 4)
              | .error _ :: _ => (none, 4)
              | .ok forecast_data :: _ =>
                match extract_forecast forecast_data with
                | .error _ => (none, 4)
                | .ok forecast => (some (temp_f, humidity, forecast), 4)

/-- Substring scan over character lists: `true` when `needle` occurs
contiguously in `hay`. -/
def containsSub (hay needle : List Char) : Bool :=
  match hay with
  | [] => needle.isEmpty
  | _ :: t => needle.isPrefixOf hay || containsSub t needle

/-- Python `needle in hay` on strings. -/
def pyIn (needle hay : String) : Bool := containsSub hay.data needle.data

/-- Python `s.lower()` (ASCII inputs; code-point-wise lowering). -/
def pyLower (s : String) : String := String.mk (s.data.map Char.toLower)

/-- Python `s[:n]`: the first `n` code points of `s`. -/
def pyTake (s : String) (n : Nat) : String := String.mk (s.data.take n)

/-- The `KEYWORDS` table of `simplify_forecast` (lines 324-330), in source
order. -/
def KEYWORDS : List String :=
  ["Thunderstorms", "T-storms", "Tstorms",
   "Sunny", "Cloudy", "Rain", "Showers", "Fog",
   "Snow", "Clear", "Wind", "Drizzle", "Storm", "Sleet", "Haze",
   "Partly Sunny", "Mostly Sunny", "Partly Cloudy", "Mostly Cloudy",
   "Slight Chance", "Chance"]

/-- The `ABBREVIATIONS` dict (lines 331-341). -/
def ABBREVIATIONS : List (String × String) :=
  [("Thunderstorms", "Tstorms"),
   ("T-storms", "Tstorms"),
   ("Tstorms", "Tstorms"),
   ("Partly Sunny", "P Sunny"),
   ("Mostly Sunny", "M Sunny"),
   ("Partly Cloudy", "P Cloudy"),
   ("Mostly Cloudy", "M Cloudy"),
   ("Slight Chance", "Chc"),
   ("Chance", "Chc")]

/-- `ABBREVIATIONS.get(word, word)`. -/
def abbrevGet (word : String) : String :=
  match ABBREVIATIONS.find? (fun p => p.1 == word) with
  | some p => p.2
  | none => word

/-- One iteration of the `for word in KEYWORDS` loop of `simplify_forecast`
(lines 345-349), acting on the accumulated `found` list. -/
def classify_step (lower_forecast : String) (found : List String) (word : String) :
    List String :=
  if pyIn (pyLower word) lower_forecast then
    let normalized := abbrevGet word
    if normalized ∈ found then found else found ++ [normalized]
  else found

/-- `simplify_forecast(forecast)` (lines 323-355). -/
def simplify_forecast (forecast : String) : List String :=
  let lower_forecast := pyLower forecast
  let found := KEYWORDS.foldl (classify_step lower_forecast) []
  if found.isEmpty then [pyTake forecast 8] else found.take 2

/-- `WIFI_MAX_ATTEMPTS` (line 30). -/
def WIFI_MAX_ATTEMPTS : Nat := 3

/-- What the boot decision sequence does after loading a settings record. -/
inductive BootAction
  | enterApplication
  | deleteSettingsAndRestart
  deriving DecidableEq, Repr

/-- The Wi-Fi association loop of the boot sequence (lines 675-693):
`wifi_current_attempt = 1; while wifi_current_attempt < WIFI_MAX_ATTEMPTS:
connect; if connected: break else wifi_current_attempt += 1`.  The `while`
condition is represented by the countdown `remaining = WIFI_MAX_ATTEMPTS -
wifi_current_attempt` (positive exactly when the condition holds);
`results i` is the outcome of the `connect_to_wifi` call made while
`wifi_current_attempt = i`, and `calls` counts the connect calls issued.
Returns (connected, number of connect calls). -/
def wifi_connect_loop (results : Nat → Bool) :
    (remaining : Nat) → (wifi_current_attempt : Nat) → (calls : Nat) → Bool × Nat
  | 0, _, calls => (false, calls)
  | remaining + 1, attempt, calls =>
    if results attempt then (true, calls + 1)
    else wifi_connect_loop results remaining (attempt + 1) (calls + 1)

/-- The boot decision once a settings record was found and decoded
(lines 674-702): run the association loop; if connected, enter
`application_mode`; otherwise delete `settings.json` and `machine_reset()`
(rebooting into provisioning).  Returns the action taken and the number of
association attempts made. -/
def boot_with_settings (results : Nat → Bool) : BootAction × Nat :=
  let r := wifi_connect_loop results (WIFI_MAX_ATTEMPTS - 1) 1 0
  (if r.1 then .enterApplication else .deleteSettingsAndRestart, r.2)

/-- `MONTHS` (lines 48-49). -/
def MONTHS : List String :=
  ["Jan", "Feb", "Mar", "Apr", "May", "Jun",
   "Jul", "Aug", "Sep", "Oct", "Nov", "Dec"]

/-- `UTC_OFFSET` (line 52). -/
def UTC_OFFSET : Int := -4 * 3600

/-- `SYNC_INTERVAL` (line 39). -/
def SYNC_INTERVAL : Int := 3600

/-- `WEATH_INTERVAL` (line 40). -/
def WEATH_INTERVAL : Int := 300

/-- A drawing operation recorded on the OLED frame after the last
`oled.fill(0)`: a text string at a pixel position, or a 32x32 weather icon
(identified by its category; the day/night bitmap variant is a display-asset
detail not modelled). -/
inductive DispOp
  | text (s : String) (x y : Int)
  | icon (category : String) (x y : Int)

/-- `center_text(text, y)` (lines 314-316): x = `(128 - len(text) * 8) // 2`
(Python floor division). -/
def center_op (s : String) (y : Int) : DispOp :=
  .text s (Int.fdiv (128 - (s.length : Int) * 8) 2) y

/-- `center_text_under_icon(text, icon_x)` (lines 318-321) with the default
`icon_width=32`, `char_width=8`. -/
def center_text_under_icon (text : String) (icon_x : Int) : Int :=
  max (icon_x + Int.fdiv 32 2 - Int.fdiv ((text.length : Int) * 8) 2) 0

/-- The date line `"{} {:02d}, {:04d}".format(MONTHS[now[1]-1], now[2],
now[0])` (lines 503, 628). -/
def date_string (t : PyTm) : String :=
  MONTHS.getD (t.mon - 1) "" ++ " " ++ zpad2 t.mday ++ ", " ++ zpad4 t.year

/-- `draw_weather_icon(forecast, x, y)` (lines 458-498), applied to the
already-extracted forecast string.  The `partly cloudy` branch of the source
reads the undefined global names `partly_cloudy_day_data` /
`party_cloudy_night_data` (the bitmaps are defined as `part_cloudy_day_data`
/ `part_cloudy_night_data`), so that branch raises `NameError`. -/
def draw_weather_icon (forecast : String) (x y : Int) : Except PyErr DispOp :=
  let f := pyLower forecast
  if pyIn "sun" f || pyIn "clear" f then .ok (.icon "clear" x y)
  else if pyIn "partly cloudy" f || pyIn "partly cloud" f then .error .nameError
  else if pyIn "thunderstorm" f || pyIn "thunderstorms" f || pyIn "t-storm" f then
    .ok (.icon "tstorm" x y)
  else if pyIn "cloud" f || pyIn "overcast" f then .ok (.icon "cloudy" x y)
  else if pyIn "rain" f || pyIn "showers" f then .ok (.icon "rain" x y)
  else if pyIn "fog" f || pyIn "haze" f then .ok (.icon "fog" x y)
  else if pyIn "snow" f || pyIn "flurries" f then .ok (.icon "snow" x y)
  else .ok (.icon "clear" x y)

/-- The forecast text lines under the icon (lines 517-523). -/
def forecast_line_ops (fs : String) : List DispOp :=
  let lines := simplify_forecast fs
  if lines.length = 2 then
    [.text (lines.getD 0 "") (center_text_under_icon (lines.getD 0 "") 70) 49,
     .text (lines.getD 1 "") (center_text_under_icon (lines.getD 1 "") 70) 57]
  else
    [.text (lines.getD 0 "") (center_text_under_icon (lines.getD 0 "") 70) 55]

/-- `display_weather(temp, humidity, forecast)` (lines 500-525), taking the
current local-time tuple as an argument in place of the
`localtime_with_offset()` call.  Returns the frame contents drawn since its
`oled.fill(0)`, or the exception the body raises: `int(humidity)` raises
`TypeError` when the stored humidity is `None`, and the icon/label code
raises when the stored forecast value is not a string. -/
def display_weather (lt : PyTm) (temp : Int) (humidity : Json) (forecast : Json) :
    Except PyErr (List DispOp) :=
  let date_str := date_string lt
  let time_str := format_12h_time lt
  match pyInt humidity with
  | .error e => .error e
  | .ok h =>
    match forecast with
    | .str fs =>
      match draw_weather_icon fs 70 18 with
      | .error e => .error e
      | .ok iconOp =>
        .ok ([center_op date_str 0, center_op time_str 10,
              .text (toString temp ++ "F") 20 30,
              .text (toString h ++ "%") 20 45,
              iconOp] ++ forecast_line_ops fs)
    | _ => .error .attributeError

/-- `isDue(now, last)` of the two schedulers: the loop conditions
`current_time - last_sync >= SYNC_INTERVAL` (line 639) and
`time.time() - last_weather_update >= WEATH_INTERVAL` (line 644). -/
def isDue (interval : Int) (now last : Int) : Bool := decide (now - last ≥ interval)

/-- `recordRun(now)`: both watermarks are set to the current time after a
(successful or failed) run (lines 641, 651). -/
def recordRun (now : Int) : Int := now

/-- The mutable state of the `application_mode` loop (lines 602-651): the
last weather triple (`None, None, None` after a failed fetch), the two
scheduler watermarks, and the flag shared with the button interrupt. -/
structure AppState where
  temp : Option Int
  humidity : Json
  forecast : Json
  last_sync : Int
  last_weather_update : Int
  start_update_requested : Bool

/-- The external world during one loop tick: the wall clock `time.time()`,
the platform's epoch-to-calendar conversion `time.localtime` (an external
primitive), whether `ntptime.settime()` would succeed, and what
`get_weather_data` would return if invoked. -/
structure TickEnv where
  now : Int
  localtimeOf : Int → PyTm
  ntp_ok : Bool
  weather : Option (Option Int × Json × Json)

/-- `localtime_with_offset()` (lines 221-224): the calendar tuple of
`now + UTC_OFFSET`. -/
def localtime_with_offset (env : TickEnv) : PyTm :=
  env.localtimeOf (env.now + UTC_OFFSET)

/-- The outcome of one pass through the `while True` body: either the
long-press flag was observed, cleared, and control handed to
`start_update_mode` (after which `application_mode` returns), or the loop
continues with a new state, having drawn `frame` and having invoked the
time-sync and/or weather-fetch actions as recorded. -/
inductive TickOutcome
  | switchedToUpdate (s : AppState)
  | continued (s : AppState) (frame : List DispOp) (sync_ran : Bool) (fetch_ran : Bool)

/-- The scheduler section of the loop body (lines 636-651): run the time
sync when due (`sync_time()` swallows its own exceptions, lines 207-213, so
whether NTP succeeds has no effect on the state) and the weather refresh
when due (a `None` from `get_weather_data` clears the stored triple); both
watermarks are set to the current time whether or not the action succeeded.
Returns the new state together with (sync ran, fetch ran). -/
def tick_update (s : AppState) (now : Int)
    (weather : Option (Option Int × Json × Json)) : AppState × Bool × Bool :=
  let sync_due := isDue SYNC_INTERVAL now s.last_sync
  let s1 := if sync_due then { s with last_sync := recordRun now } else s
  let fetch_due := isDue WEATH_INTERVAL now s1.last_weather_update
  let s2 :=
    if fetch_due then
      match weather with
      | some (t, h, f) =>
        { s1 with temp := t, humidity := h, forecast := f,
                  last_weather_update := recordRun now }
      | none =>
        { s1 with temp := none, humidity := .null, forecast := .null,
                  last_weather_update := recordRun now }
    else s1
  (s2, sync_due, fetch_due)

/-- One iteration of the `application_mode` main loop (lines 611-653).
Uncaught exceptions (only the display path can raise) abort the loop. -/
def app_tick (s : AppState) (env : TickEnv) : Except PyErr TickOutcome :=
  if s.start_update_requested then
    .ok (.switchedToUpdate { s with start_update_requested := false })
  else
    let dispRes : Except PyErr (List DispOp) :=
      match s.temp with
      | some t => display_weather (localtime_with_offset env) t s.humidity s.forecast
      | none => .ok [.text "Weather data" 0 20, .text "unavailable" 0 30]
    match dispRes with
    | .error e => .error e
    | .ok frame0 =>
      let lt := localtime_with_offset env
      let frame := frame0 ++ [center_op (date_string lt) 0, center_op (format_12h_time lt) 10]
      let r := tick_update s env.now env.weather
      .ok (.continued r.1 frame r.2.1 r.2.2)

/-- Where a run of the `application_mode` loop ends up. -/
inductive RunOutcome
  | switched (s : AppState)
  | running (s : AppState)

/-- Run the loop over a list of per-tick environments.  When a tick observes
the long-press flag the function returns at once (lines 612-616): the
remaining environments are never consumed, i.e. application mode is never
resumed.  An uncaught exception propagates out of `application_mode`. -/
def app_run (s : AppState) : List TickEnv → Except PyErr RunOutcome
  | [] => .ok (.running s)
  | e :: es =>
    match app_tick s e with
    | .error err => .error err
    | .ok (.switchedToUpdate s') => .ok (.switched s')
    | .ok (.continued s' _ _ _) => app_run s' es

/-! ## Helper lemmas -/

/-- For elapsed real times below half the tick period (about 6.2 days),
`ticks_diff` of the wrapped counters recovers the true elapsed duration. -/
theorem ticks_diff_elapsed (t0 d : Nat) (hd : d < 536870912) :
    ticks_diff (ticks_ms (t0 + d)) (ticks_ms t0) = d := by
  simp only [ticks_diff, ticks_ms, TICKS_PERIOD]
  omega

theorem classify_foldl_nodup (lf : String) (ws : List String) (acc : List String)
    (h : acc.Nodup) : (ws.foldl (classify_step lf) acc).Nodup := by
  induction ws generalizing acc with
  | nil => exact h
  | cons w ws ih =>
    refine ih _ ?_
    unfold classify_step
    by_cases h1 : pyIn (pyLower w) lf
    · simp only [h1, if_true]
      by_cases h2 : abbrevGet w ∈ acc
      · simp only [h2, if_true]
        exact h
      · simp only [h2, if_false]
        simp [List.nodup_append, h, h2]
    · simp only [h1, if_false]
      exact h

theorem classify_foldl_no_match (lf : String) (ws : List String) (acc : List String)
    (h : ∀ w ∈ ws, pyIn (pyLower w) lf = false) :
    ws.foldl (classify_step lf) acc = acc := by
  induction ws generalizing acc with
  | nil => rfl
  | cons w ws ih =>
    have hw := h w (by simp)
    simp only [List.foldl_cons, classify_step, hw, Bool.false_eq_true, if_false]
    exact ih acc fun x hx => h x (List.mem_cons_of_mem _ hx)

/-! ## C1 -/

/-- C1 (code bug): the claim says Wi-Fi association is attempted up to 3
times before the settings file is deleted, and the source's own constant is
`WIFI_MAX_ATTEMPTS = 3`; but the loop `while wifi_current_attempt <
WIFI_MAX_ATTEMPTS` starts at 1, so only 2 connect calls are ever made.  With
settings present: association failing every time (or succeeding only on what
would be the 3rd attempt) gives up after 2 attempts and deletes
settings/restarts into provisioning; association succeeding on the 1st or
2nd attempt enters application mode. -/
theorem boot_wifi_only_two_attempts :
    boot_with_settings (fun _ => false) = (.deleteSettingsAndRestart, 2) ∧
    boot_with_settings (fun i => decide (i = 3)) = (.deleteSettingsAndRestart, 2) ∧
    boot_with_settings (fun _ => true) = (.enterApplication, 1) ∧
    boot_with_settings (fun i => decide (i = 2)) = (.enterApplication, 2) := by
  exact ⟨by decide, by decide, by decide, by decide⟩

/-! ## C2 -/

/-- C2: for a press with a recorded press-start (falling edge at real time
`t0` ms, release at `t0 + d` ms, `d` below half the tick-wrap period) and
the mode-switch flag not already set, the rising-edge handler sets the
mode-switch-requested flag and the long-press flag exactly when
`d ≥ 5000` ms; concretely a 4999 ms press leaves both clear and a 5000 ms
press sets both. -/
theorem long_press_flag_iff (s : ButtonState) (t0 d : Nat)
    (hflag : s.start_update_requested = false) (hd : d < 536870912) :
    (∃ s1 s2,
      setup_sw_handler (ticks_ms t0) 0 s = .ok s1 ∧
      setup_sw_handler (ticks_ms (t0 + d)) 1 s1 = .ok s2 ∧
      (s2.start_update_requested = true ↔ 5000 ≤ d) ∧
      (s2.long_press_triggered = some true ↔ 5000 ≤ d)) ∧
    setup_sw_handler 4999 1 ⟨some (some 0), some false, false⟩ =
      .ok ⟨some none, some false, false⟩ ∧
    setup_sw_handler 5000 1 ⟨some (some 0), some false, false⟩ =
      .ok ⟨some none, some true, true⟩ := by
  refine ⟨?_, rfl, rfl⟩
  have hdiff := ticks_diff_elapsed t0 d hd
  by_cases h5 : 5000 ≤ d
  · refine ⟨_, ⟨some none, some true, true⟩, rfl, ?_, by simp [h5], by simp [h5]⟩
    have h5i : (5000 : Int) ≤ (d : Int) := by exact_mod_cast h5
    simp [setup_sw_handler, hdiff, h5i]
  · refine ⟨_, ⟨some none, some false, false⟩, rfl, ?_, by simp [h5], by simp [h5]⟩
    have h5i : ¬ (5000 : Int) ≤ (d : Int) := by exact_mod_cast h5
    simp [setup_sw_handler, hdiff, h5i]
    exact hflag

/-- Witness for C2, at a press starting at boot state and time 0: releasing
at 5000 ms sets the flags, releasing at 4999 ms does not. -/
theorem long_press_flag_iff_witness :
    ((∃ s1 s2,
      setup_sw_handler (ticks_ms 0) 0 button_init = .ok s1 ∧
      setup_sw_handler (ticks_ms (0 + 5000)) 1 s1 = .ok s2 ∧
      (s2.start_update_requested = true ↔ 5000 ≤ 5000) ∧
      (s2.long_press_triggered = some true ↔ 5000 ≤ 5000)) ∧
     setup_sw_handler 4999 1 ⟨some (some 0), some false, false⟩ =
       .ok ⟨some none, some false, false⟩ ∧
     setup_sw_handler 5000 1 ⟨some (some 0), some false, false⟩ =
       .ok ⟨some none, some true, true⟩) ∧
    ((∃ s1 s2,
      setup_sw_handler (ticks_ms 0) 0 button_init = .ok s1 ∧
      setup_sw_handler (ticks_ms (0 + 4999)) 1 s1 = .ok s2 ∧
      (s2.start_update_requested = true ↔ 5000 ≤ 4999) ∧
      (s2.long_press_triggered = some true ↔ 5000 ≤ 4999))) :=
  ⟨long_press_flag_iff button_init 0 5000 rfl (by decide),
   (long_press_flag_iff button_init 0 4999 rfl (by decide)).1⟩

/-! ## C5 -/

/-- C5 (counterexample): at hour 13 the formatter does not produce
`"1:MM:SS PM"`; `"{:2d}"` right-aligns the hour in a width-2 field, so the
actual output carries a leading space. -/
theorem format_12h_hour13_leading_space :
    format_12h_time ⟨2025, 6, 15, 13, 5, 7⟩ = " 1:05:07 PM" ∧
    format_12h_time ⟨2025, 6, 15, 13, 5, 7⟩ ≠ "1:05:07 PM" :=
  ⟨by decide, by decide⟩

/-- C5 (amended): hour 0 maps to `"12:MM:SS AM"`, hour 12 to
`"12:MM:SS PM"`, hour 23 to `"11:MM:SS PM"`, and hour 13 to
`" 1:MM:SS PM"` — the hour field is width-2 space-padded, so single-digit
12-hour values carry a leading space. -/
theorem format_12h_boundary_hours (y mo d mm ss : Nat) :
    format_12h_time ⟨y, mo, d, 0, mm, ss⟩ =
      "12" ++ ":" ++ zpad2 mm ++ ":" ++ zpad2 ss ++ " " ++ "AM" ∧
    format_12h_time ⟨y, mo, d, 12, mm, ss⟩ =
      "12" ++ ":" ++ zpad2 mm ++ ":" ++ zpad2 ss ++ " " ++ "PM" ∧
    format_12h_time ⟨y, mo, d, 13, mm, ss⟩ =
      " 1" ++ ":" ++ zpad2 mm ++ ":" ++ zpad2 ss ++ " " ++ "PM" ∧
    format_12h_time ⟨y, mo, d, 23, mm, ss⟩ =
      "11" ++ ":" ++ zpad2 mm ++ ":" ++ zpad2 ss ++ " " ++ "PM" := by
  refine ⟨?_, ?_, ?_, ?_⟩
  · show pad2 12 ++ ":" ++ zpad2 mm ++ ":" ++ zpad2 ss ++ " " ++ "AM" = _
    rw [show pad2 12 = "12" by decide]
  · show pad2 12 ++ ":" ++ zpad2 mm ++ ":" ++ zpad2 ss ++ " " ++ "PM" = _
    rw [show pad2 12 = "12" by decide]
  · show pad2 1 ++ ":" ++ zpad2 mm ++ ":" ++ zpad2 ss ++ " " ++ "PM" = _
    rw [show pad2 1 = " 1" by decide]
  · show pad2 11 ++ ":" ++ zpad2 mm ++ ":" ++ zpad2 ss ++ " " ++ "PM" = _
    rw [show pad2 11 = "11" by decide]

/-! ## C9 -/

/-- C9 (code bug): `press_time` is assigned only inside the interrupt
handler, never at module scope, so on the very first rising edge since boot
(button held while the handler was registered, then released) the handler
reads an unbound global and raises `NameError` instead of being a no-op.
Once a press cycle has completed (`press_time` holds `None`), a further
rising edge is the intended no-op. -/
theorem rising_edge_never_pressed_raises :
    setup_sw_handler 1000 1 button_init = .error .nameError ∧
    setup_sw_handler 1000 1 ⟨some none, some false, false⟩ =
      .ok ⟨some none, some false, false⟩ :=
  ⟨rfl, rfl⟩

/-! ## C4 -/

/-- C4: the classifier matches the priority-ordered keyword table
case-insensitively as substrings, replaces keywords by their abbreviations,
deduplicates preserving first-match order, and returns at most the first two
matches, falling back to the first 8 characters of the raw text when nothing
matches; in particular the three example inputs of the claim evaluate as
stated. -/
theorem simplify_forecast_spec :
    simplify_forecast "Chance of Thunderstorms and Rain" = ["Tstorms", "Rain"] ∧
    simplify_forecast "Clear" = ["Clear"] ∧
    simplify_forecast "Blustery" = ["Blustery"] ∧
    (∀ f : String, (simplify_forecast f).length ≤ 2) ∧
    (∀ f : String, (simplify_forecast f).Nodup) ∧
    (∀ f : String, (∀ w ∈ KEYWORDS, pyIn (pyLower w) (pyLower f) = false) →
      simplify_forecast f = [pyTake f 8]) := by
  refine ⟨by decide, by decide, by decide, ?_, ?_, ?_⟩
  · intro f
    simp only [simplify_forecast]
    split
    · simp
    · simp
  · intro f
    simp only [simplify_forecast]
    split
    · simp
    · exact (List.take_sublist 2 _).nodup (classify_foldl_nodup _ _ _ List.nodup_nil)
  · intro f h
    simp only [simplify_forecast]
    rw [classify_foldl_no_match (pyLower f) KEYWORDS [] h]
    rfl

/-- Witness for C4: the no-keyword fallback at a concrete input. -/
theorem simplify_forecast_spec_witness :
    simplify_forecast "zzz" = [pyTake "zzz" 8] :=
  simplify_forecast_spec.2.2.2.2.2 "zzz" (by decide)

/-! ## C3 -/

/-- C3: the weather pipeline is all-or-nothing.  A successful result means
all four requests were issued and every response decoded (conjunct 1); a
request/decode exception at any of the four steps — including a malformed
first document — yields the failure value `None` with no partial snapshot
(conjuncts 2-6, matching the spec's `NetworkError`/`DecodeError` classes);
and an empty stations list yields `None` after exactly 2 requests, never
consuming further responses (conjunct 7, the spec's `NoStationsFound`). -/
theorem get_weather_data_all_or_nothing :
    (∀ env v n, get_weather_data env = (some v, n) →
      n = 4 ∧ ∃ j1 j2 j3 j4 rest,
        env = .ok j1 :: .ok j2 :: .ok j3 :: .ok j4 :: rest) ∧
    (∀ e rest, get_weather_data (.error e :: rest) = (none, 1)) ∧
    (∀ j1 e rest, extract_point j1 = .error e →
      get_weather_data (.ok j1 :: rest) = (none, 1)) ∧
    (∀ j1 u e rest, extract_point j1 = .ok u →
      get_weather_data (.ok j1 :: .error e :: rest) = (none, 2)) ∧
    (∀ j1 u j2 sid e rest, extract_point j1 = .ok u →
      extract_station j2 = .ok (some sid) →
      get_weather_data (.ok j1 :: .ok j2 :: .error e :: rest) = (none, 3)) ∧
    (∀ j1 u j2 sid j3 tf hum e rest, extract_point j1 = .ok u →
      extract_station j2 = .ok (some sid) → extract_obs j3 = .ok (tf, hum) →
      get_weather_data (.ok j1 :: .ok j2 :: .ok j3 :: .error e :: rest) = (none, 4)) ∧
    (∀ j1 u j2 rest, extract_point j1 = .ok u → extract_station j2 = .ok none →
      get_weather_data (.ok j1 :: .ok j2 :: rest) = (none, 2)) := by
  refine ⟨?_, ?_, ?_, ?_, ?_, ?_, ?_⟩
  · intro env v n h
    rcases env with _ | ⟨e1 | j1, env1⟩
    · simp [get_weather_data] at h
    · simp [get_weather_data] at h
    rcases h1 : extract_point j1 with e | u
    · simp [get_weather_data, h1] at h
    rcases env1 with _ | ⟨e2 | j2, env2⟩
    · simp [get_weather_data, h1] at h
    · simp [get_weather_data, h1] at h
    rcases h2 : extract_station j2 with e | (_ | sid)
    · simp [get_weather_data, h1, h2] at h
    · simp [get_weather_data, h1, h2] at h
    rcases env2 with _ | ⟨e3 | j3, env3⟩
    · simp [get_weather_data, h1, h2] at h
    · simp [get_weather_data, h1, h2] at h
    rcases h3 : extract_obs j3 with e | ⟨tf, hum⟩
    · simp [get_weather_data, h1, h2, h3] at h
    rcases env3 with _ | ⟨e4 | j4, env4⟩
    · simp [get_weather_data, h1, h2, h3] at h
    · simp [get_weather_data, h1, h2, h3] at h
    rcases h4 : extract_forecast j4 with e | fc
    · simp [get_weather_data, h1, h2, h3, h4] at h
    · simp [get_weather_data, h1, h2, h3, h4] at h
      exact ⟨h.2.symm, j1, j2, j3, j4, env4, rfl⟩
  · intro e rest
    rfl
  · intro j1 e rest h1
    simp [get_weather_data, h1]
  · intro j1 u e rest h1
    simp [get_weather_data, h1]
  · intro j1 u j2 sid e rest h1 h2
    simp [get_weather_data, h1, h2]
  · intro j1 u j2 sid j3 tf hum e rest h1 h2 h3
    simp [get_weather_data, h1, h2, h3]
  · intro j1 u j2 rest h1 h2
    simp [get_weather_data, h1, h2]

/-- Witness for C3: a concrete run in which the stations list is empty —
the result is the failure value after exactly 2 requests, and the queued
third response is never consumed. -/
theorem get_weather_data_all_or_nothing_witness :
    get_weather_data
      [.ok (Json.obj [("properties",
         Json.obj [("forecast", Json.str "fu"), ("observationStations", Json.str "ou")])]),
       .ok (Json.obj [("features", Json.arr [])]),
       .error .networkError] = (none, 2) :=
  get_weather_data_all_or_nothing.2.2.2.2.2.2 _
    (Json.str "fu", Json.str "ou") _ _ rfl rfl

/-! ## C7 -/

/-- C7: when the mode-switch flag is set, the very next tick observes it
before any display or weather work (the outcome carries no frame and runs no
scheduler action), clears it, and hands control to `start_update_mode`; the
rest of the run is never executed (the remaining tick environments `es` are
arbitrary and unused), i.e. application mode is not resumed. -/
theorem mode_switch_checked_first (s : AppState) (env : TickEnv) (es : List TickEnv)
    (h : s.start_update_requested = true) :
    app_tick s env = .ok (.switchedToUpdate { s with start_update_requested := false }) ∧
    app_run s (env :: es) = .ok (.switched { s with start_update_requested := false }) := by
  have h1 : app_tick s env =
      .ok (.switchedToUpdate { s with start_update_requested := false }) := by
    unfold app_tick
    rw [h]
    rfl
  refine ⟨h1, ?_⟩
  unfold app_run
  rw [h1]

/-- Witness for C7 at a concrete state with the flag set. -/
theorem mode_switch_checked_first_witness :
    app_tick ⟨none, .null, .null, 0, 0, true⟩
        ⟨1000, fun _ => ⟨2025, 6, 15, 10, 30, 0⟩, true, none⟩ =
      .ok (.switchedToUpdate
        { (⟨none, .null, .null, 0, 0, true⟩ : AppState) with start_update_requested := false }) ∧
    app_run ⟨none, .null, .null, 0, 0, true⟩
        [⟨1000, fun _ => ⟨2025, 6, 15, 10, 30, 0⟩, true, none⟩] =
      .ok (.switched
        { (⟨none, .null, .null, 0, 0, true⟩ : AppState) with start_update_requested := false }) :=
  mode_switch_checked_first ⟨none, .null, .null, 0, 0, true⟩
    ⟨1000, fun _ => ⟨2025, 6, 15, 10, 30, 0⟩, true, none⟩ [] rfl

/-! ## C6 -/

/-- C6: with no stored temperature (the state after any failed weather
fetch) and the switch flag clear, a tick never raises — for every
environment, in particular one where NTP sync fails (`ntp_ok = false`) and
the weather fetch fails (`weather = none`) — and the drawn frame is the
literal "Weather data"/"unavailable" fallback followed by the date and time
lines computed from the current wall clock `env.now`, which keeps advancing
from the last successful sync regardless of weather failures. -/
theorem weather_failure_graceful (s : AppState) (env : TickEnv)
    (hflag : s.start_update_requested = false) (htemp : s.temp = none) :
    ∃ s2 sr fr, app_tick s env = .ok (.continued s2
      ([.text "Weather data" 0 20, .text "unavailable" 0 30] ++
       [center_op (date_string (localtime_with_offset env)) 0,
        center_op (format_12h_time (localtime_with_offset env)) 10]) sr fr) := by
  unfold app_tick
  rw [hflag, htemp]
  exact ⟨_, _, _, rfl⟩

/-- Witness for C6, with both the NTP sync and the weather fetch failing in
the tick's environment. -/
theorem weather_failure_graceful_witness :
    ∃ s2 sr fr, app_tick ⟨none, .null, .null, 0, 0, false⟩
      ⟨400, fun _ => ⟨2025, 6, 15, 10, 30, 0⟩, false, none⟩ = .ok (.continued s2
      ([.text "Weather data" 0 20, .text "unavailable" 0 30] ++
       [center_op (date_string (localtime_with_offset
          ⟨400, fun _ => ⟨2025, 6, 15, 10, 30, 0⟩, false, none⟩)) 0,
        center_op (format_12h_time (localtime_with_offset
          ⟨400, fun _ => ⟨2025, 6, 15, 10, 30, 0⟩, false, none⟩)) 10]) sr fr) :=
  weather_failure_graceful ⟨none, .null, .null, 0, 0, false⟩
    ⟨400, fun _ => ⟨2025, 6, 15, 10, 30, 0⟩, false, none⟩ rfl rfl

/-! ## C8 -/

/-- C8: for both schedulers (3600 s sync, 300 s weather), `isDue` is false
immediately after `recordRun` at the same instant and becomes true exactly
when `now - last` reaches the interval; and in the loop's scheduler section
the sync watermark is advanced whenever the sync ran (NTP success is not
even an input: `sync_time()` swallows failures), while a weather fetch that
ran and failed (`weather = none`) still advances its watermark and clears
the stored triple, so neither action is retried before the next interval. -/
theorem scheduler_watermarks :
    (∀ now : Int, isDue SYNC_INTERVAL now (recordRun now) = false ∧
      isDue WEATH_INTERVAL now (recordRun now) = false) ∧
    (∀ now last : Int, isDue SYNC_INTERVAL now last = true ↔ SYNC_INTERVAL ≤ now - last) ∧
    (∀ now last : Int, isDue WEATH_INTERVAL now last = true ↔ WEATH_INTERVAL ≤ now - last) ∧
    (∀ s now w, (tick_update s now w).2.1 = isDue SYNC_INTERVAL now s.last_sync) ∧
    (∀ s now w, (tick_update s now w).2.1 = true →
      ((tick_update s now w).1).last_sync = recordRun now) ∧
    (∀ s now, (tick_update s now none).2.2 = true →
      ((tick_update s now none).1).last_weather_update = recordRun now ∧
      ((tick_update s now none).1).temp = none) := by
  refine ⟨?_, ?_, ?_, ?_, ?_, ?_⟩
  · intro now
    constructor <;> simp [isDue, recordRun, SYNC_INTERVAL, WEATH_INTERVAL]
  · intro now last
    simp [isDue, ge_iff_le]
  · intro now last
    simp [isDue, ge_iff_le]
  · intro s now w
    rfl
  · intro s now w h
    simp only [tick_update] at h ⊢
    simp only [h, if_true]
    split
    · split <;> rfl
    · rfl
  · intro s now h
    simp only [tick_update] at h ⊢
    simp [h]

/-- Witness for C8: a concrete state and instant at which both schedulers
are due and the weather fetch fails; the watermark and the cleared triple
are exhibited, along with the post-`recordRun` non-due facts. -/
theorem scheduler_watermarks_witness :
    (isDue SYNC_INTERVAL 100 (recordRun 100) = false ∧
     isDue WEATH_INTERVAL 100 (recordRun 100) = false) ∧
    ((tick_update ⟨some 70, .null, .str "Clear", 0, 0, false⟩ 4000 none).1.last_weather_update =
       recordRun 4000 ∧
     (tick_update ⟨some 70, .null, .str "Clear", 0, 0, false⟩ 4000 none).1.temp = none) :=
  ⟨scheduler_watermarks.1 100,
   scheduler_watermarks.2.2.2.2.2 ⟨some 70, .null, .str "Clear", 0, 0, false⟩ 4000 rfl⟩

/-! ## C10 -/

/-- C10: after a fetch that succeeded with a temperature but a `None`
relative humidity, the next display tick reaches `int(humidity)` — the
display path guards only on the temperature — which raises `TypeError` and
terminates the application loop. -/
theorem humidity_none_crashes (s : AppState) (env : TickEnv) (t : Int) (es : List TickEnv)
    (hflag : s.start_update_requested = false) (htemp : s.temp = some t)
    (hhum : s.humidity = Json.null) :
    app_tick s env = .error .typeError ∧
    app_run s (env :: es) = .error .typeError := by
  have h1 : app_tick s env = .error .typeError := by
    unfold app_tick
    rw [hflag, htemp, hhum]
    simp [display_weather, pyInt]
  refine ⟨h1, ?_⟩
  unfold app_run
  rw [h1]

/-- Witness for C10 at a concrete state: 70 F stored, humidity `None`. -/
theorem humidity_none_crashes_witness :
    app_tick ⟨some 70, Json.null, Json.str "Clear", 0, 0, false⟩
        ⟨50, fun _ => ⟨2025, 6, 15, 10, 30, 0⟩, true, none⟩ = .error .typeError ∧
    app_run ⟨some 70, Json.null, Json.str "Clear", 0, 0, false⟩
        [⟨50, fun _ => ⟨2025, 6, 15, 10, 30, 0⟩, true, none⟩] = .error .typeError :=
  humidity_none_crashes ⟨some 70, Json.null, Json.str "Clear", 0, 0, false⟩
    ⟨50, fun _ => ⟨2025, 6, 15, 10, 30, 0⟩, true, none⟩ 70 [] rfl rfl rfl
